import Mathlib

/-!
Shallow embedding of the audio converter script (src/audio-converter.py).

Paths reaching the conversion logic have already had backslashes replaced
by forward slashes (main, lines 154-156), so the path helpers implement
the POSIX (posixpath) semantics of Python's os.path functions.

The external collaborators — the ffmpeg probe run through subprocess, the
filesystem queried by os.path.isfile / os.path.isdir, os.makedirs, and
the pydub engine calls AudioSegment.from_file and audio.export — are
modelled by an environment record FS; observable actions (printed lines,
directory creation, engine invocations) are recorded in a trace of
Effect values.
-/

/-- One observable action of a run: a line printed to stdout, an
os.makedirs invocation, an AudioSegment.from_file invocation, or an
audio.export invocation. -/
inductive Effect where
  | print (msg : String)
  | mkdirs (dir : String)
  | load (file : String)
  | exportFile (file : String) (fmt : String)
deriving DecidableEq, Repr

/-- A Python exception as observed by the handlers at lines 90, 114 and
119 of the script: its type name (type(e).__name__) and its message
(str(e)). -/
structure PyExc where
  name : String
  msg : String
deriving DecidableEq, Repr

/-- The environment of one run: the outcomes of the external collaborators
the script consults. Function-valued fields model read-only queries; the
Option PyExc fields give the exception an external call raises (none
meaning it succeeds). -/
structure FS where
  /-- Whether subprocess.run of the ffmpeg version probe succeeds
  (ffmpeg on the search path, line 14). -/
  ffmpegInPath : Bool
  /-- Whether os.path.exists finds ffmpeg.exe in the working directory
  (line 21). -/
  ffmpegExeInCwd : Bool
  /-- Result of os.path.isfile. -/
  isFile : String → Bool
  /-- Result of os.path.isdir. -/
  isDir : String → Bool
  /-- Environmental failure of os.makedirs on a directory (permissions,
  invalid path), independent of the exist_ok flag. -/
  mkdirErr : String → Option PyExc
  /-- Exception raised by AudioSegment.from_file on a path. -/
  loadErr : String → Option PyExc
  /-- Exception raised by audio.export on an output path and format. -/
  exportErr : String → String → Option PyExc

/-- Guidance message printed by check_ffmpeg when ffmpeg is found neither
on the search path nor in the working directory (lines 23-26). -/
def ffmpegNotFoundMsg : String :=
  "FFmpeg not found. Please ensure ffmpeg.exe is:\n1. Added to system PATH, or\n2. Placed in the same directory as this script\nDownload FFmpeg from: https://github.com/BtbN/FFmpeg-Builds/releases"

/-- Lines 7-27: verify ffmpeg availability — the version probe first,
then a local ffmpeg.exe; prints guidance and returns false when both
fail. -/
def check_ffmpeg (fs : FS) : Bool × List Effect :=
  if fs.ffmpegInPath then (true, [])
  else if fs.ffmpegExeInCwd then (true, [])
  else (false, [Effect.print ffmpegNotFoundMsg])

/-- posixpath.basename: the part of the path after the last slash. -/
def basename (p : String) : String :=
  String.mk ((p.toList.reverse.takeWhile (fun c => c != '/')).reverse)

/-- posixpath.dirname: the part of the path before the last slash, with
trailing slashes stripped unless the result consists only of slashes. -/
def dirname (p : String) : String :=
  let head := (p.toList.reverse.dropWhile (fun c => c != '/')).reverse
  if head.all (fun c => c == '/') then String.mk head
  else String.mk ((head.reverse.dropWhile (fun c => c == '/')).reverse)

/-- Root part of posixpath.splitext for a path component without
separators (the script only applies it to a basename, line 69): the name
up to its last dot, except that a leading run of dots never starts an
extension. -/
def splitext_root (name : String) : String :=
  let cs := name.toList
  let extRev := cs.reverse.takeWhile (fun c => c != '.')
  if extRev.length = cs.length then name
  else
    let root := (cs.reverse.drop (extRev.length + 1)).reverse
    if root.all (fun c => c == '.') then name else String.mk root

/-- Python b.startswith of a slash: the first character is a slash. -/
def startsWithSlash (b : String) : Bool :=
  match b.toList with
  | [] => false
  | c :: _ => c == '/'

/-- Python a.endswith of a slash: the last character is a slash. -/
def endsWithSlash (a : String) : Bool :=
  match a.toList.getLast? with
  | some c => c == '/'
  | none => false

/-- posixpath.join for two components, as os.path.join is used at lines
77 and 82 of the script. -/
def pathJoin (a b : String) : String :=
  if startsWithSlash b then b
  else if a = "" ∨ endsWithSlash a = true then a ++ b
  else a ++ ("/") ++ b

/-- Python str.lower. Character-wise ASCII lowering; it agrees with
Python's Unicode lowering on every string whose lowering can be a member
of the ASCII supported-format list. -/
def pyLower (s : String) : String :=
  String.mk (s.toList.map Char.toLower)

/-- Lines 29-33: the fixed list of commonly supported audio formats. -/
def get_supported_formats : List String :=
  [("mp3"), ("wav"), ("ogg"), ("m4a"), ("flac"), ("aac"), ("wma")]

/-- Lines 35-43: case-insensitive membership of the format token in the
supported list (format_str.lower() in get_supported_formats()). The
tokens of the list are ASCII, so Lean's ASCII toLower agrees with
Python's lower() on every string whose lowering could be a member. -/
def validate_format (format_str : String) : Bool :=
  get_supported_formats.contains (pyLower format_str)

/-- Lines 68-82 of convert_audio: derivation of the final output path
from the input path, the requested format and the optional output
argument. Python falsiness makes both None and the empty string take the
no-output branch. When the supplied path is not an existing directory and
its directory portion is empty, the path is kept unchanged. -/
def resolveOutput (fs : FS) (input_file output_format : String)
    (output_file : Option String) : String :=
  let original_filename := splitext_root (basename input_file)
  match output_file with
  | none => original_filename ++ "." ++ output_format
  | some o =>
    if o = "" then original_filename ++ "." ++ output_format
    else if fs.isDir o then
      pathJoin o (original_filename ++ "." ++ output_format)
    else
      let output_dir := dirname o
      if output_dir = "" then o
      else pathJoin output_dir (original_filename ++ "." ++ output_format)

/-- Python os.makedirs(dir, exist_ok), an external stdlib collaborator:
fails with the environment's error when it reports one, fails with
FileExistsError when the directory already exists and exist_ok is false,
and otherwise succeeds (creating the directory or, under exist_ok,
accepting a pre-existing one). -/
def makedirs (fs : FS) (dir : String) (exist_ok : Bool) : Option PyExc :=
  match fs.mkdirErr dir with
  | some e => some e
  | none =>
    if fs.isDir dir && !exist_ok then some ⟨("FileExistsError"), dir⟩
    else none

/-- Lines 103-117 of convert_audio: the inner try block loading the input
with pydub and exporting it to the resolved path, turning any exception
into printed diagnostics and a false result. -/
def doConversion (fs : FS) (input_file output_format out : String)
    (pre : List Effect) : Bool × List Effect :=
  let e3 := pre ++ [Effect.print ("Loading " ++ input_file ++ "..."),
                    Effect.load input_file]
  match fs.loadErr input_file with
  | some e => (false, e3 ++ [Effect.print ("Conversion error: " ++ e.msg),
      Effect.print ("Full error details: " ++ e.name)])
  | none =>
    let e4 := e3 ++ [Effect.print ("Converting to " ++ output_format ++ "..."),
                     Effect.exportFile out output_format]
    match fs.exportErr out output_format with
    | some e => (false, e4 ++ [Effect.print ("Conversion error: " ++ e.msg),
        Effect.print ("Full error details: " ++ e.name)])
    | none => (true, e4 ++ [Effect.print ("Successfully saved to: " ++ out)])

/-- Lines 45-121: the conversion orchestrator. Returns the boolean result
along with the trace of observable actions. The outer try/except at lines
52 and 119 is reflected in the function's totality: every branch yields a
boolean, never an exception. -/
def convert_audio (fs : FS) (input_file : String) (output_format : String)
    (output_file : Option String := none) : Bool × List Effect :=
  let c := check_ffmpeg fs
  if c.fst = false then (false, c.snd)
  else if fs.isFile input_file = false then
    (false, c.snd ++ [Effect.print ("Error: Input file not found: " ++ input_file)])
  else if validate_format output_format = false then
    (false, c.snd ++
      [Effect.print ("Error: Unsupported output format: " ++ output_format),
       Effect.print ("Supported formats: " ++ String.intercalate (", ") get_supported_formats)])
  else
    let out := resolveOutput fs input_file output_format output_file
    let d := dirname out
    if d = "" then doConversion fs input_file output_format out c.snd
    else
      match makedirs fs d true with
      | some e => (false, c.snd ++ [Effect.mkdirs d,
          Effect.print ("Error creating directory " ++ d ++ ": " ++ e.msg)])
      | none => doConversion fs input_file output_format out
          (c.snd ++ [Effect.mkdirs d, Effect.print ("Created/verified directory: " ++ d)])

/-- Parsed command-line arguments (argparse, lines 127-145). -/
structure Args where
  input : String
  output_format : String
  output : Option String := none

/-- Lines 155-156: backslash-to-slash normalization applied once at the
CLI boundary. -/
def normalizeSeps (s : String) : String :=
  String.mk (s.toList.map (fun c => if c == '\\' then '/' else c))

/-- Usage text printed by parser.print_help (line 149); generated by the
external argparse library, abbreviated here to its usage line. -/
def usageText : String :=
  "usage: audio-converter.py [-h] --input INPUT --output_format OUTPUT_FORMAT [--output OUTPUT]"

namespace converter

/-- Line 156 of the script: the normalized optional output argument; a
falsy (empty) --output value is passed on as None. -/
def cliOutput (a : Args) : Option String :=
  match a.output with
  | none => none
  | some s => if s = "" then none else some (normalizeSeps s)

/-- Lines 123-159: the entry point. The value none stands for an empty
argument vector (len(sys.argv) == 1), which prints usage and exits with
status 1; otherwise the normalized arguments go to convert_audio and the
exit status maps its boolean (0 success, 1 failure). A falsy (empty)
--output argument is passed on as None, line 156. The first component of
the result is the process exit status. -/
def main (fs : FS) (args : Option Args) : Nat × List Effect :=
  match args with
  | none => (1, [Effect.print usageText])
  | some a =>
    let r := convert_audio fs (normalizeSeps a.input) a.output_format (cliOutput a)
    (if r.fst then 0 else 1, r.snd)

end converter

/-- Environment with no ffmpeg anywhere, no files, no directories and no
external failures. -/
def fsEmpty : FS where
  ffmpegInPath := false
  ffmpegExeInCwd := false
  isFile := fun _ => false
  isDir := fun _ => false
  mkdirErr := fun _ => none
  loadErr := fun _ => none
  exportErr := fun _ _ => none

/-- Environment where only the ffmpeg probe succeeds. -/
def fsFFmpegOnly : FS := { fsEmpty with ffmpegInPath := true }

/-- Environment where ffmpeg is available and every path is a file. -/
def fsConvertOk : FS := { fsEmpty with ffmpegInPath := true, isFile := fun _ => true }

/-- Environment where ffmpeg is available and b/ is an existing
directory. -/
def fsDirB : FS :=
  { fsEmpty with ffmpegInPath := true, isDir := fun s => s == ("b/") }

theorem check_ffmpeg_true_snd (fs : FS) (h : (check_ffmpeg fs).fst = true) :
    (check_ffmpeg fs).snd = [] := by
  unfold check_ffmpeg at h ⊢
  cases h1 : fs.ffmpegInPath <;> cases h2 : fs.ffmpegExeInCwd <;> simp_all

theorem check_ffmpeg_false_snd (fs : FS) (h : (check_ffmpeg fs).fst = false) :
    (check_ffmpeg fs).snd = [Effect.print ffmpegNotFoundMsg] := by
  unfold check_ffmpeg at h ⊢
  cases h1 : fs.ffmpegInPath <;> cases h2 : fs.ffmpegExeInCwd <;> simp_all

theorem toList_mk (l : List Char) : (String.mk l).toList = l := rfl

theorem basename_chars (p : String) (c : Char) (h : c ∈ (basename p).toList) :
    c ≠ '/' := by
  unfold basename at h
  rw [toList_mk, List.mem_reverse] at h
  have := List.mem_takeWhile_imp h
  simpa using this

theorem splitext_root_chars (n : String) (c : Char)
    (h : c ∈ (splitext_root n).toList) : c ∈ n.toList := by
  unfold splitext_root at h
  simp only [] at h
  split at h
  · exact h
  · split at h
    · exact h
    · rw [toList_mk, List.mem_reverse] at h
      have h2 := List.mem_of_mem_drop h
      rw [List.mem_reverse] at h2
      exact h2

theorem dirname_eq_empty (s : String) (h : ∀ c ∈ s.toList, c ≠ '/') :
    dirname s = "" := by
  unfold dirname
  have hd : s.data.reverse.dropWhile (fun c => c != '/') = [] := by
    rw [List.dropWhile_eq_nil_iff]
    intro x hx
    simpa using h x (List.mem_reverse.mp hx)
  simp [hd]

theorem stem_chars_ne_slash (p : String) :
    ∀ c ∈ (splitext_root (basename p)).toList, c ≠ '/' :=
  fun c hc => basename_chars p c (splitext_root_chars (basename p) c hc)

theorem convert_audio_engine_fail (fs : FS) (i f : String) (o : Option String)
    (hc : (check_ffmpeg fs).fst = false) :
    convert_audio fs i f o = (false, (check_ffmpeg fs).snd) := by
  unfold convert_audio
  simp [hc]

theorem convert_audio_no_input (fs : FS) (i f : String) (o : Option String)
    (hc : (check_ffmpeg fs).fst = true) (hf : fs.isFile i = false) :
    convert_audio fs i f o = (false, (check_ffmpeg fs).snd ++
      [Effect.print (("Error: Input file not found: ") ++ i)]) := by
  unfold convert_audio
  simp [hc, hf]

theorem convert_audio_bad_format (fs : FS) (i f : String) (o : Option String)
    (hc : (check_ffmpeg fs).fst = true) (hf : fs.isFile i = true)
    (hv : validate_format f = false) :
    convert_audio fs i f o = (false, (check_ffmpeg fs).snd ++
      [Effect.print (("Error: Unsupported output format: ") ++ f),
       Effect.print (("Supported formats: ") ++ String.intercalate (", ") get_supported_formats)]) := by
  unfold convert_audio
  simp [hc, hf, hv]

theorem convert_audio_mkdir_fail (fs : FS) (i f : String) (o : Option String)
    (hc : (check_ffmpeg fs).fst = true) (hf : fs.isFile i = true)
    (hv : validate_format f = true)
    (hd : dirname (resolveOutput fs i f o) ≠ "") (e : PyExc)
    (hm : makedirs fs (dirname (resolveOutput fs i f o)) true = some e) :
    convert_audio fs i f o = (false, (check_ffmpeg fs).snd ++
      [Effect.mkdirs (dirname (resolveOutput fs i f o)),
       Effect.print (("Error creating directory ") ++ dirname (resolveOutput fs i f o)
         ++ (": ") ++ e.msg)]) := by
  unfold convert_audio
  simp [hc, hf, hv, hd, hm]

theorem convert_audio_nodir (fs : FS) (i f : String) (o : Option String)
    (hc : (check_ffmpeg fs).fst = true) (hf : fs.isFile i = true)
    (hv : validate_format f = true)
    (hd : dirname (resolveOutput fs i f o) = "") :
    convert_audio fs i f o =
      doConversion fs i f (resolveOutput fs i f o) (check_ffmpeg fs).snd := by
  unfold convert_audio
  simp [hc, hf, hv, hd]

theorem convert_audio_mkdir_ok (fs : FS) (i f : String) (o : Option String)
    (hc : (check_ffmpeg fs).fst = true) (hf : fs.isFile i = true)
    (hv : validate_format f = true)
    (hd : dirname (resolveOutput fs i f o) ≠ "")
    (hm : makedirs fs (dirname (resolveOutput fs i f o)) true = none) :
    convert_audio fs i f o = doConversion fs i f (resolveOutput fs i f o)
      ((check_ffmpeg fs).snd ++ [Effect.mkdirs (dirname (resolveOutput fs i f o)),
        Effect.print (("Created/verified directory: ")
          ++ dirname (resolveOutput fs i f o))]) := by
  unfold convert_audio
  simp [hc, hf, hv, hd, hm]

theorem doConversion_fst (fs : FS) (i f out : String) (pre : List Effect) :
    (doConversion fs i f out pre).fst = true ↔
      (fs.loadErr i = none ∧ fs.exportErr out f = none) := by
  unfold doConversion
  cases hl : fs.loadErr i <;> cases he : fs.exportErr out f <;> simp [hl, he]

theorem doConversion_load_mem (fs : FS) (i f out : String) (pre : List Effect) :
    Effect.load i ∈ (doConversion fs i f out pre).snd := by
  unfold doConversion
  cases hl : fs.loadErr i <;> cases he : fs.exportErr out f <;> simp [hl, he]

theorem doConversion_print_mem (fs : FS) (i f out : String) (pre : List Effect) :
    Effect.print (("Loading ") ++ i ++ ("...")) ∈ (doConversion fs i f out pre).snd := by
  unfold doConversion
  cases hl : fs.loadErr i <;> cases he : fs.exportErr out f <;> simp [hl, he]

/-- C1 (amended): for an explicitly supplied, nonempty output path that
does not name an existing directory, the resolution keeps the supplied
path unchanged when its directory portion is empty, and otherwise joins
that directory portion with the input stem followed by a dot and the
requested format, discarding the filename component supplied in the
output path. -/
theorem filelike_output_resolution (fs : FS) (i f o : String)
    (hne : o ≠ "") (hd : fs.isDir o = false) :
    resolveOutput fs i f (some o) =
      if dirname o = "" then o
      else pathJoin (dirname o) (splitext_root (basename i) ++ "." ++ f) := by
  unfold resolveOutput
  simp [hne, hd]

/-- C1 counterexample: with output path renamed.ogg — explicitly
supplied, not an existing directory, directory portion empty — the
supplied filename is not discarded: the resolved path is renamed.ogg,
not the claimed song.ogg. -/
theorem output_stem_not_discarded_cex :
    fsEmpty.isDir ("renamed.ogg") = false ∧
    resolveOutput fsEmpty ("a/song.wav") ("ogg") (some ("renamed.ogg")) = ("renamed.ogg") ∧
    ("renamed.ogg" : String) ≠ ("song.ogg") := by
  refine ⟨rfl, by decide, by decide⟩

/-- C1 witness: the claim's own example still holds — output path
c/renamed.ogg with input a/song.wav and format ogg resolves to
c/song.ogg, the supplied stem renamed being discarded. -/
theorem filelike_output_resolution_witness :
    resolveOutput fsEmpty ("a/song.wav") ("ogg") (some ("c/renamed.ogg")) = ("c/song.ogg") := by
  have h := filelike_output_resolution fsEmpty ("a/song.wav") ("ogg") ("c/renamed.ogg")
    (by decide) (by decide)
  exact h.trans (by decide)

/-- C2: with no output path supplied, the resolved output is the input
file's stem followed by a dot and the requested format, and its
directory portion is empty — the current (relative) directory. -/
theorem no_output_resolution (fs : FS) (i f : String)
    (hf : ∀ c ∈ f.toList, c ≠ '/') :
    resolveOutput fs i f none = splitext_root (basename i) ++ "." ++ f ∧
    dirname (resolveOutput fs i f none) = "" := by
  refine ⟨rfl, ?_⟩
  apply dirname_eq_empty
  intro c hc
  have hc2 : c ∈ ((splitext_root (basename i)).toList ++ [('.' : Char)]) ++ f.toList := hc
  rcases List.mem_append.mp hc2 with h1 | h2
  · rcases List.mem_append.mp h1 with h3 | h4
    · exact stem_chars_ne_slash i c h3
    · simp only [List.mem_singleton] at h4
      subst h4
      decide
  · exact hf c h2

/-- C2 witness: input song.wav with format mp3 and no output path
resolves to song.mp3, whose directory portion is empty. -/
theorem no_output_resolution_witness :
    resolveOutput fsEmpty ("song.wav") ("mp3") none = ("song.mp3") ∧
    dirname (resolveOutput fsEmpty ("song.wav") ("mp3") none) = ("") := by
  have h := no_output_resolution fsEmpty ("song.wav") ("mp3") (by decide)
  exact ⟨h.1.trans (by decide), h.2⟩

/-- C3: validate_format is a case-insensitive membership test against the
fixed supported set — MP3 and mp3 both validate true, the empty string
and any token outside the set validate false, and validity is exactly
membership of the lowered token in get_supported_formats. -/
theorem validate_format_spec :
    validate_format ("MP3") = true ∧ validate_format ("mp3") = true ∧
    validate_format ("xyz") = false ∧ validate_format ("") = false ∧
    ∀ s : String, validate_format s = true ↔ pyLower s ∈ get_supported_formats := by
  refine ⟨by decide, by decide, by decide, by decide, fun s => ?_⟩
  unfold validate_format
  exact List.elem_iff

/-- C4: when the engine check passes but the input file does not exist,
convert_audio prints the file-not-found diagnostic and returns false,
and the trace holds no engine invocation — no load and no export. -/
theorem input_not_found_aborts (fs : FS) (i f : String) (o : Option String)
    (hc : (check_ffmpeg fs).fst = true) (hf : fs.isFile i = false) :
    (convert_audio fs i f o).fst = false ∧
    Effect.print (("Error: Input file not found: ") ++ i) ∈ (convert_audio fs i f o).snd ∧
    (∀ p, Effect.load p ∉ (convert_audio fs i f o).snd) ∧
    (∀ p g, Effect.exportFile p g ∉ (convert_audio fs i f o).snd) := by
  have he := convert_audio_no_input fs i f o hc hf
  have hs := check_ffmpeg_true_snd fs hc
  rw [he, hs]
  refine ⟨rfl, by simp, ?_, ?_⟩
  · intro p; simp
  · intro p g; simp

/-- C4 witness: with ffmpeg available and no files, converting song.wav
returns false, prints the diagnostic and never invokes the engine. -/
theorem input_not_found_aborts_witness :
    (convert_audio fsFFmpegOnly ("song.wav") ("mp3") none).fst = false ∧
    Effect.print (("Error: Input file not found: ") ++ ("song.wav")) ∈
      (convert_audio fsFFmpegOnly ("song.wav") ("mp3") none).snd ∧
    Effect.load ("song.wav") ∉ (convert_audio fsFFmpegOnly ("song.wav") ("mp3") none).snd := by
  have h := input_not_found_aborts fsFFmpegOnly ("song.wav") ("mp3") none (by decide) (by decide)
  exact ⟨h.1, h.2.1, h.2.2.1 ("song.wav")⟩

/-- C5: when the engine availability check fails, convert_audio returns
false and the trace holds no directory creation and no export — the
run aborts before any filesystem mutation. -/
theorem engine_unavailable_aborts (fs : FS) (i f : String) (o : Option String)
    (hc : (check_ffmpeg fs).fst = false) :
    (convert_audio fs i f o).fst = false ∧
    (∀ d, Effect.mkdirs d ∉ (convert_audio fs i f o).snd) ∧
    (∀ p g, Effect.exportFile p g ∉ (convert_audio fs i f o).snd) := by
  have he := convert_audio_engine_fail fs i f o hc
  have hs := check_ffmpeg_false_snd fs hc
  rw [he, hs]
  refine ⟨rfl, ?_, ?_⟩
  · intro d; simp
  · intro p g; simp

/-- C5 witness: with no ffmpeg anywhere, converting song.wav returns
false and neither creates a directory nor exports. -/
theorem engine_unavailable_aborts_witness :
    (convert_audio fsEmpty ("song.wav") ("mp3") none).fst = false ∧
    Effect.mkdirs ("out") ∉ (convert_audio fsEmpty ("song.wav") ("mp3") none).snd ∧
    Effect.exportFile ("song.mp3") ("mp3") ∉ (convert_audio fsEmpty ("song.wav") ("mp3") none).snd := by
  have h := engine_unavailable_aborts fsEmpty ("song.wav") ("mp3") none (by decide)
  exact ⟨h.1, h.2.1 ("out"), h.2.2 ("song.mp3") ("mp3")⟩

/-- C6: convert_audio is total — it yields a boolean on every input,
never an exception — the run succeeding exactly when every step of the
sequence succeeds (engine check, existence check, format validation,
directory creation where needed, engine load and export), the first
failing step short-circuiting to false; and every failing run prints a
diagnostic. -/
theorem convert_audio_short_circuit (fs : FS) (i f : String) (o : Option String) :
    ((convert_audio fs i f o).fst = true ↔
      ((check_ffmpeg fs).fst = true ∧ fs.isFile i = true ∧ validate_format f = true ∧
        (dirname (resolveOutput fs i f o) = "" ∨
          makedirs fs (dirname (resolveOutput fs i f o)) true = none) ∧
        fs.loadErr i = none ∧ fs.exportErr (resolveOutput fs i f o) f = none)) ∧
    ((convert_audio fs i f o).fst = false →
      ∃ m, Effect.print m ∈ (convert_audio fs i f o).snd) := by
  cases hc : (check_ffmpeg fs).fst with
  | false =>
    have he := convert_audio_engine_fail fs i f o hc
    have hs := check_ffmpeg_false_snd fs hc
    rw [he, hs]
    constructor
    · simp [hc]
    · intro _
      exact ⟨ffmpegNotFoundMsg, by simp⟩
  | true =>
    cases hf : fs.isFile i with
    | false =>
      have he := convert_audio_no_input fs i f o hc hf
      rw [he]
      constructor
      · simp [hf]
      · intro _
        exact ⟨("Error: Input file not found: ") ++ i, by simp⟩
    | true =>
      cases hv : validate_format f with
      | false =>
        have he := convert_audio_bad_format fs i f o hc hf hv
        rw [he]
        constructor
        · simp [hv]
        · intro _
          exact ⟨("Error: Unsupported output format: ") ++ f, by simp⟩
      | true =>
        by_cases hd : dirname (resolveOutput fs i f o) = ""
        · have he := convert_audio_nodir fs i f o hc hf hv hd
          rw [he]
          constructor
          · rw [doConversion_fst]
            simp [hc, hf, hv, hd]
          · intro _
            exact ⟨_, doConversion_print_mem fs i f (resolveOutput fs i f o) _⟩
        · cases hm : makedirs fs (dirname (resolveOutput fs i f o)) true with
          | some e =>
            have he := convert_audio_mkdir_fail fs i f o hc hf hv hd e hm
            rw [he]
            constructor
            · simp [hc, hf, hv, hd, hm]
            · intro _
              exact ⟨("Error creating directory ") ++ dirname (resolveOutput fs i f o)
                ++ (": ") ++ e.msg, by simp⟩
          | none =>
            have he := convert_audio_mkdir_ok fs i f o hc hf hv hd hm
            rw [he]
            constructor
            · rw [doConversion_fst]
              simp [hc, hf, hv, hm]
            · intro _
              exact ⟨_, doConversion_print_mem fs i f (resolveOutput fs i f o) _⟩

/-- C7: when the supplied output path names an existing directory, the
resolved output joins that directory with the input stem followed by a
dot and the requested format. -/
theorem existing_dir_resolution (fs : FS) (i f o : String)
    (hne : o ≠ "") (hd : fs.isDir o = true) :
    resolveOutput fs i f (some o) =
      pathJoin o (splitext_root (basename i) ++ "." ++ f) := by
  unfold resolveOutput
  simp [hne, hd]

/-- C7 witness: input a/song.wav, format flac, output b/ (an existing
directory) resolves to b/song.flac. -/
theorem existing_dir_resolution_witness :
    resolveOutput fsDirB ("a/song.wav") ("flac") (some ("b/")) = ("b/song.flac") := by
  have h := existing_dir_resolution fsDirB ("a/song.wav") ("flac") ("b/")
    (by decide) (by decide)
  exact h.trans (by decide)

/-- C8: destination-directory creation is idempotent — when the
environment reports no error on the target directory, makedirs with
exist_ok (as the script passes it at line 88) succeeds even when the
directory pre-exists, and the run proceeds to the engine — while a
directory-creation failure makes convert_audio print the underlying
error text and return false without invoking the engine. -/
theorem directory_creation_policy (fs : FS) (i f : String) (o : Option String)
    (hc : (check_ffmpeg fs).fst = true) (hfile : fs.isFile i = true)
    (hv : validate_format f = true) :
    (fs.mkdirErr (dirname (resolveOutput fs i f o)) = none →
      makedirs fs (dirname (resolveOutput fs i f o)) true = none) ∧
    (fs.mkdirErr (dirname (resolveOutput fs i f o)) = none →
      Effect.load i ∈ (convert_audio fs i f o).snd) ∧
    (∀ e, makedirs fs (dirname (resolveOutput fs i f o)) true = some e →
      dirname (resolveOutput fs i f o) ≠ "" →
      (convert_audio fs i f o).fst = false ∧
      Effect.print (("Error creating directory ") ++ dirname (resolveOutput fs i f o)
        ++ (": ") ++ e.msg) ∈ (convert_audio fs i f o).snd ∧
      (∀ p, Effect.load p ∉ (convert_audio fs i f o).snd) ∧
      (∀ p g, Effect.exportFile p g ∉ (convert_audio fs i f o).snd)) := by
  refine ⟨?_, ?_, ?_⟩
  · intro hm
    unfold makedirs
    simp [hm]
  · intro hm
    have hmk : makedirs fs (dirname (resolveOutput fs i f o)) true = none := by
      unfold makedirs
      simp [hm]
    by_cases hd : dirname (resolveOutput fs i f o) = ""
    · rw [convert_audio_nodir fs i f o hc hfile hv hd]
      exact doConversion_load_mem fs i f (resolveOutput fs i f o) _
    · rw [convert_audio_mkdir_ok fs i f o hc hfile hv hd hmk]
      exact doConversion_load_mem fs i f (resolveOutput fs i f o) _
  · intro e hm hd
    rw [convert_audio_mkdir_fail fs i f o hc hfile hv hd e hm]
    have hs := check_ffmpeg_true_snd fs hc
    rw [hs]
    refine ⟨rfl, by simp, ?_, ?_⟩
    · intro p; simp
    · intro p g; simp

/-- C8 witness: with ffmpeg available, the input present and no
environmental makedirs error, directory creation succeeds and the run
proceeds to load the input. -/
theorem directory_creation_policy_witness :
    makedirs fsConvertOk (dirname (resolveOutput fsConvertOk ("a/song.wav") ("mp3") none)) true = none ∧
    Effect.load ("a/song.wav") ∈ (convert_audio fsConvertOk ("a/song.wav") ("mp3") none).snd := by
  have h := directory_creation_policy fsConvertOk ("a/song.wav") ("mp3") none
    (by decide) (by decide) (by decide)
  exact ⟨h.1 rfl, h.2.1 rfl⟩

/-- C9: an empty argument vector prints usage and exits with status 1;
with parsed arguments the process exits 0 exactly when convert_audio
returns true and 1 exactly when it returns false. -/
theorem exit_code_mapping (fs : FS) (a : Args) :
    (converter.main fs none).fst = 1 ∧
    Effect.print usageText ∈ (converter.main fs none).snd ∧
    ((converter.main fs (some a)).fst = 0 ↔
      (convert_audio fs (normalizeSeps a.input) a.output_format (converter.cliOutput a)).fst = true) ∧
    ((converter.main fs (some a)).fst = 1 ↔
      (convert_audio fs (normalizeSeps a.input) a.output_format (converter.cliOutput a)).fst = false) := by
  refine ⟨rfl, by simp [converter.main], ?_, ?_⟩ <;>
    unfold converter.main <;>
    cases hr : (convert_audio fs (normalizeSeps a.input) a.output_format (converter.cliOutput a)).fst <;>
    simp [hr]

/-- C10: an empty-string output path behaves exactly as an absent one —
the Python falsy check routes both to the no-output branch — in the
resolver and in convert_audio as a whole. -/
theorem empty_output_like_none (fs : FS) (i f : String) :
    resolveOutput fs i f (some ("")) = resolveOutput fs i f none ∧
    convert_audio fs i f (some ("")) = convert_audio fs i f none := by
  have h : resolveOutput fs i f (some ("")) = resolveOutput fs i f none := by
    unfold resolveOutput
    simp
  refine ⟨h, ?_⟩
  unfold convert_audio
  rw [h]
